import Mathlib

/-!
Shallow embedding of the AnimeParser stream-resolution core
(files `src/anigo/animego/core/abstract.py`, `parser/player_parser.py`,
`parser/mpd_parser.py`, `aniboom/mpd.py`, `cvh/__init__.py`,
`models/__init__.py`, `exceptions/__init__.py`, `exceptions/utils.py`).

Python exceptions are embedded as an error type carried in `Except`;
Python dicts as insertion-ordered association lists; decoded JSON as an
inductive value type with an executable fuel-based decoder standing in
for `json.loads`.  Network fetches take the transport outcome as an
explicit argument; BeautifulSoup queries are passed in as collaborator
functions, matching the markup-access adapter of the design.
-/

set_option maxRecDepth 20000

namespace AnimeParser

/-- Single apostrophe character (ASCII 39), used inside the Russian
error messages of the source. -/
def sq : String := String.singleton (Char.ofNat 39)

/-- Left curly brace (ASCII 123) and right curly brace (ASCII 125). -/
def lbrace : Char := Char.ofNat 123

/-- Right curly brace (ASCII 125). -/
def rbrace : Char := Char.ofNat 125

/-- The exception taxonomy of the repository
(`exceptions/__init__.py`: `NotFindError`, `StatusError`,
`DataIncorrectError`) together with the Python builtin exceptions the
core code can raise or catch (`TypeError`, `ValueError`, `KeyError`,
`json.JSONDecodeError`).  Each constructor carries the message (for
`keyError`, the missing key). -/
inductive PErr where
  | notFind (msg : String)
  | statusError (msg : String)
  | dataIncorrect (msg : String)
  | typeError (msg : String)
  | valueError (msg : String)
  | keyError (key : String)
  | jsonDecodeError (msg : String)
deriving DecidableEq, Repr

/-- Embeds `exceptions/utils.py::not_find`:
`NotFindError(f"Не был найден атрибут:-{query}-")` (with apostrophes
around the query). -/
def not_find (query : String) : PErr :=
  PErr.notFind ("Не был найден атрибут: " ++ sq ++ query ++ sq)

/-- Python dict insertion, used to embed dict comprehensions and
`json.loads` object construction: a repeated key keeps its original
position but takes the new value; a fresh key goes to the end. -/
def dictInsert {α β : Type} [BEq α] (m : List (α × β)) (k : α) (v : β) :
    List (α × β) :=
  if m.any (fun p => p.1 == k) then
    m.map (fun p => if p.1 == k then (k, v) else p)
  else m ++ [(k, v)]

/-- Python `dict.get`: first (hence only) binding of the key, if any. -/
def dictGet {α β : Type} [BEq α] (m : List (α × β)) (k : α) : Option β :=
  (m.find? (fun p => p.1 == k)).map (fun p => p.2)

/-- Whitespace test for `str.strip` and the JSON decoder. -/
def wsChar (c : Char) : Bool :=
  c = ' ' || c = '\t' || c = '\n' || c = '\r'

/-- Drops leading whitespace from a character list. -/
def dropWs : List Char → List Char
  | [] => []
  | c :: cs => if wsChar c then dropWs cs else c :: cs

/-- Both-ends whitespace strip of a character list (`str.strip`). -/
def trimChars (l : List Char) : List Char :=
  ((dropWs ((dropWs l).reverse)).reverse)

/-- Nonempty all-digit test. -/
def digitsOnly (l : List Char) : Bool :=
  !l.isEmpty && l.all (fun c => c.isDigit)

/-- Numeric value of a digit list. -/
def digitsToNat (ds : List Char) : Nat :=
  ds.foldl (fun acc c => acc * 10 + (c.toNat - 48)) 0

/-- Prefix test on character lists. -/
def isPrefixChars : List Char → List Char → Bool
  | [], _ => true
  | _ :: _, [] => false
  | a :: as', b :: bs' => a = b && isPrefixChars as' bs'

/-- String prefix test (model of `str.startswith`). -/
def strStarts (s p : String) : Bool :=
  isPrefixChars p.data s.data

/-- Embeds Python `int(s)` for a string argument: optional surrounding
whitespace, optional sign, decimal digits; anything else raises
`ValueError` (message shape from CPython). -/
def pyIntStr (s : String) : Except PErr Int :=
  let parsed : Option Int :=
    match trimChars s.data with
    | '-' :: ds => if digitsOnly ds then some (-(digitsToNat ds : Int)) else none
    | '+' :: ds => if digitsOnly ds then some ((digitsToNat ds : Int)) else none
    | ds => if digitsOnly ds then some ((digitsToNat ds : Int)) else none
  match parsed with
  | some n => Except.ok n
  | none =>
      Except.error (PErr.valueError
        ("invalid literal for int() with base 10: " ++ sq ++ s ++ sq))

/-- Embeds Python `int(x)` where `x` is a string attribute value or
`None` (an absent attribute): `int(None)` raises `TypeError`. -/
def pyIntKey : Option String → Except PErr Int
  | some s => pyIntStr s
  | none =>
      Except.error (PErr.typeError
        ("int() argument must be a string, a bytes-like object or a real number, not " ++
          sq ++ "NoneType" ++ sq))

/-- Decoded JSON values, the result type of `json.loads`.  JSON numbers
are modelled as integers; the code under verification never consumes
fractional numbers. -/
inductive JVal where
  | str (s : String)
  | num (n : Int)
  | bool (b : Bool)
  | null
  | arr (xs : List JVal)
  | obj (fields : List (String × JVal))
deriving Repr

/-- Python truthiness of a decoded JSON value: `None`, `""`, `0`,
`False`, `[]` and an empty object are falsy, everything else truthy. -/
def jTruthy : JVal → Bool
  | JVal.str s => s != ""
  | JVal.num n => n != 0
  | JVal.bool b => b
  | JVal.null => false
  | JVal.arr xs => !xs.isEmpty
  | JVal.obj fs => !fs.isEmpty

/-- Truthiness of the result of a Python `dict.get`: an absent key
yields `None`, which is falsy. -/
def optTruthy : Option JVal → Bool
  | some v => jTruthy v
  | none => false

/-- Python `str()` of a decoded JSON value, as interpolated into
f-strings by the source; containers do not reach any interpolation in
the verified paths, so their rendering is schematic. -/
def pyStr : JVal → String
  | JVal.str s => s
  | JVal.num n => toString n
  | JVal.bool b => if b then "True" else "False"
  | JVal.null => "None"
  | JVal.arr _ => "[...]"
  | JVal.obj _ => "(dict)"

/-- Python `str()` of a `dict.get` result (`None` when absent). -/
def pyStrOpt : Option JVal → String
  | some v => pyStr v
  | none => "None"

/-- Embeds the comparison `data.get("status") != "success"` (negated):
true exactly when the value is the string `success`; a non-string
Python value is never `==` to a `str`. -/
def optIsSuccess : Option JVal → Bool
  | some (JVal.str s) => s == "success"
  | _ => false

/-- Whitespace skipping of the JSON decoder. -/
def jSkipWs : List Char → List Char
  | [] => []
  | c :: cs =>
      if c = ' ' || c = '\t' || c = '\n' || c = '\r' then jSkipWs cs
      else c :: cs

/-- JSON string-literal body: characters after the opening quote up to
the closing quote, processing the standard escape sequences. -/
def jStringBody : List Char → Option (List Char × List Char)
  | [] => none
  | '\\' :: e :: rest =>
      match (match e with
        | '"' => some '"'
        | '\\' => some '\\'
        | '/' => some '/'
        | 'n' => some '\n'
        | 't' => some '\t'
        | 'r' => some '\r'
        | 'b' => some (Char.ofNat 8)
        | 'f' => some (Char.ofNat 12)
        | _ => none) with
      | some c => (jStringBody rest).map (fun p => (c :: p.1, p.2))
      | none => none
  | '"' :: rest => some ([], rest)
  | c :: rest => (jStringBody rest).map (fun p => (c :: p.1, p.2))

/-- Longest digit prefix of a character list. -/
def jTakeDigits : List Char → (List Char × List Char)
  | [] => ([], [])
  | c :: cs =>
      if c.isDigit then
        let p := jTakeDigits cs
        (c :: p.1, p.2)
      else ([], c :: cs)

/-- Nonempty digit run parsed as a natural number. -/
def jParseNat (cs : List Char) : Option (Nat × List Char) :=
  match jTakeDigits cs with
  | ([], _) => none
  | (ds, rest) => some (digitsToNat ds, rest)

mutual

/-- JSON value parser; the fuel argument strictly decreases on each
recursive call and is sized generously by the top-level entry point. -/
def jVal : Nat → List Char → Option (JVal × List Char)
  | 0, _ => none
  | Nat.succ f, cs =>
    match jSkipWs cs with
    | '"' :: rest =>
        (jStringBody rest).map (fun p => (JVal.str (String.mk p.1), p.2))
    | 't' :: 'r' :: 'u' :: 'e' :: rest => some (JVal.bool true, rest)
    | 'f' :: 'a' :: 'l' :: 's' :: 'e' :: rest => some (JVal.bool false, rest)
    | 'n' :: 'u' :: 'l' :: 'l' :: rest => some (JVal.null, rest)
    | '-' :: rest =>
        (jParseNat rest).map (fun p => (JVal.num (-(p.1 : Int)), p.2))
    | c :: rest =>
        if c = lbrace then jObj f rest
        else if c = '[' then jArr f rest
        else if c.isDigit then
          (jParseNat (c :: rest)).map (fun p => (JVal.num (p.1 : Int), p.2))
        else none
    | [] => none

/-- Object parser, entered after the opening brace. -/
def jObj : Nat → List Char → Option (JVal × List Char)
  | 0, _ => none
  | Nat.succ f, cs =>
    match jSkipWs cs with
    | c :: rest =>
        if c = rbrace then some (JVal.obj [], rest)
        else jMembers f [] (c :: rest)
    | [] => none

/-- Object member list, accumulated with Python dict-insertion
semantics (`json.loads` keeps the last value of a repeated key). -/
def jMembers : Nat → List (String × JVal) → List Char →
    Option (JVal × List Char)
  | 0, _, _ => none
  | Nat.succ f, acc, cs =>
    match jSkipWs cs with
    | '"' :: rest =>
      match jStringBody rest with
      | none => none
      | some (kcs, rest2) =>
        match jSkipWs rest2 with
        | ':' :: rest3 =>
          match jVal f rest3 with
          | none => none
          | some (v, rest4) =>
            match jSkipWs rest4 with
            | ',' :: rest5 => jMembers f (dictInsert acc (String.mk kcs) v) rest5
            | c :: rest5 =>
                if c = rbrace then
                  some (JVal.obj (dictInsert acc (String.mk kcs) v), rest5)
                else none
            | [] => none
        | _ => none
    | _ => none

/-- Array parser, entered after the opening bracket. -/
def jArr : Nat → List Char → Option (JVal × List Char)
  | 0, _ => none
  | Nat.succ f, cs =>
    match jSkipWs cs with
    | ']' :: rest => some (JVal.arr [], rest)
    | rest => jItems f [] rest

/-- Array item list. -/
def jItems : Nat → List JVal → List Char → Option (JVal × List Char)
  | 0, _, _ => none
  | Nat.succ f, acc, cs =>
    match jVal f cs with
    | none => none
    | some (v, rest) =>
      match jSkipWs rest with
      | ',' :: rest2 => jItems f (acc ++ [v]) rest2
      | ']' :: rest2 => some (JVal.arr (acc ++ [v]), rest2)
      | _ => none

end

/-- Embeds `json.loads`: decode a complete JSON document; a syntax
error or trailing non-whitespace raises `json.JSONDecodeError`. -/
def jloads (s : String) : Except PErr JVal :=
  match jVal (4 * s.length + 8) s.data with
  | some (v, rest) =>
      if (jSkipWs rest).isEmpty then Except.ok v
      else Except.error (PErr.jsonDecodeError ("Extra data"))
  | none => Except.error (PErr.jsonDecodeError ("Expecting value"))

/-- Embeds Python subscription `v[k]` with a string key on a decoded
JSON value: a dict lookup raising `KeyError` when absent; subscripting
a non-dict with a string raises `TypeError`. -/
def pyGetItem (v : JVal) (k : String) : Except PErr JVal :=
  match v with
  | JVal.obj fields =>
      match dictGet fields k with
      | some w => Except.ok w
      | none => Except.error (PErr.keyError k)
  | _ =>
      Except.error (PErr.typeError
        ("indices must be integers, not str"))

/-- Embeds `json.loads` applied to an already-decoded value, as in
`json.loads(embed_data["dash"])`: the argument must be a string. -/
def pyLoads (v : JVal) : Except PErr JVal :=
  match v with
  | JVal.str s => jloads s
  | _ =>
      Except.error (PErr.typeError
        ("the JSON object must be str, bytes or bytearray"))

/-- Embeds Python iteration over a decoded JSON value (`for item in
data["items"]`): lists yield elements, dicts their keys, strings their
characters; other values raise `TypeError`. -/
def pyIter (v : JVal) : Except PErr (List JVal) :=
  match v with
  | JVal.arr xs => Except.ok xs
  | JVal.obj fs => Except.ok (fs.map (fun p => JVal.str p.1))
  | JVal.str s => Except.ok (s.data.map (fun c => JVal.str (String.singleton c)))
  | _ => Except.error (PErr.typeError ("object is not iterable"))

/-- Whether an embedded Python computation ran without raising. -/
def isOkE {α : Type} : Except PErr α → Bool
  | Except.ok _ => true
  | Except.error _ => false

/-- Outcome of one HTTP round trip as reported by the `httpx`
collaborator: a body on success, `HTTPStatusError` from
`raise_for_status` on a non-2xx status, or `RequestError` on a
connection-level failure. -/
inductive Transport where
  | ok (text : String)
  | httpStatus (code : Nat)
  | requestError (msg : String)
deriving DecidableEq, Repr

/-- Message of the `DataIncorrectError` that `BaseMpd._fetch` raises
for an HTTP status failure (`abstract.py` line 180). -/
def httpErrMsg (code : Nat) (url : String) : String :=
  "HTTP error " ++ toString code ++ " for " ++ url

/-- Message of the `DataIncorrectError` that `BaseMpd._fetch` raises
for a connection failure (`abstract.py` line 182). -/
def reqErrMsg (url : String) (msg : String) : String :=
  "Request failed for " ++ url ++ ": " ++ msg

/-- Embeds `BaseMpd._fetch` (`abstract.py` lines 170-182): returns the
body text on success; catches `httpx.HTTPStatusError` and
`httpx.RequestError` and re-raises both as `DataIncorrectError`. -/
def base_fetch (url : String) (t : Transport) : Except PErr String :=
  match t with
  | Transport.ok text => Except.ok text
  | Transport.httpStatus code =>
      Except.error (PErr.dataIncorrect (httpErrMsg code url))
  | Transport.requestError msg =>
      Except.error (PErr.dataIncorrect (reqErrMsg url msg))

/-- One child node of a parsed document block, as the markup adapter
reports it: its stripped text and its attributes.  Whitespace-only
text nodes appear with empty text and no attributes. -/
structure PTag where
  text : String
  attrs : List (String × String)
deriving DecidableEq, Repr

/-- Embeds `Tag.get(key)`: the attribute value, or `None`. -/
def PTag.get (t : PTag) (k : String) : Option String :=
  dictGet t.attrs k

/-- Embeds `models/__init__.py::PlayerPart` as actually populated by
`PlayerParser._create_single_player`: `url` is the `data-player`
attribute (possibly absent), `dubbing_id` the `int(...)` coercion of
the declared dub id, `dubbing_name` the `dict.get` result from the dub
map (possibly `None`). -/
structure PlayerPart where
  title : String
  url : Option String
  dubbing_id : Int
  dubbing_name : Option String
deriving DecidableEq, Repr

/-- Embeds `models/__init__.py::Player` as populated by the parser:
`ids` receives the raw declared dub ids (strings, or `None` for an
absent attribute), despite the annotation `List[int]` in the source. -/
structure Player where
  title : String
  ids : List (Option String)
  players : List PlayerPart
deriving DecidableEq, Repr

/-- Embeds `models/__init__.py::PlayerParseInfo`. -/
structure PlayerParseInfo where
  title : String
  all_dubbing : List Int
  all_players : List String
  info : List Player
deriving DecidableEq, Repr

/-- Embeds `models/__init__.py::EmbedData`; fields hold the decoded
JSON values the constructor receives (the dataclass does not coerce). -/
structure EmbedData where
  id : JVal
  domain : JVal
  duration : JVal
  poster : JVal
  mpd_url : JVal
  m3u8_url : JVal
  quality : JVal
  quality_video : JVal
  rating : JVal

/-- Embeds `models/__init__.py::CvhItems` (decoded JSON values). -/
structure CvhItems where
  cvh_id : JVal
  name : JVal
  vk_id : JVal
  voice_studio : JVal
  voice_type : JVal
  season : JVal
  episode : JVal

/-- Embeds `models/__init__.py::CvhData`. -/
structure CvhData where
  title : JVal
  is_serial : JVal
  items : List CvhItems

/-- The `str | PlayerPart` union accepted by `_normalize_url`,
`get_playlist` and `get_full_data`. -/
inductive UrlOrPart where
  | url (s : String)
  | part (p : PlayerPart)
deriving DecidableEq, Repr

/-- Scheme-character test of `urllib.parse`. -/
def schemeChar (c : Char) : Bool :=
  c.isAlphanum || c = '+' || c = '-' || c = '.'

/-- Splits off the longest scheme-character prefix. -/
def spanScheme : List Char → (List Char × List Char)
  | [] => ([], [])
  | c :: cs =>
      if schemeChar c then
        let r := spanScheme cs
        (c :: r.1, r.2)
      else ([], c :: cs)

/-- Scheme test used by `urljoinHttps`: a nonempty run of scheme
characters followed by a colon. -/
def hasScheme (u : String) : Bool :=
  match spanScheme u.data with
  | ([], _) => false
  | (_, ':' :: _) => true
  | (_, _) => false

/-- Embeds `urllib.parse.urljoin("https:", u)`: a scheme-relative
reference gains the `https` scheme, a reference that already carries a
scheme is returned unchanged, and a bare path is joined onto the empty
authority of the base. -/
def urljoinHttps (u : String) : String :=
  if u = "" then "https:"
  else if strStarts u ("//") then "https:" ++ u
  else if hasScheme u then u
  else if strStarts u ("/") then "https://" ++ u
  else "https:///" ++ u

/-- Embeds `BaseMpd._normalize_url` (`abstract.py` lines 153-163):
extract the string from a `str` or a `PlayerPart` and join it onto the
`https` scheme; a `PlayerPart` with no `url` makes `urljoin` raise
`TypeError`. -/
def normalize_url (u : UrlOrPart) : Except PErr String :=
  match u with
  | UrlOrPart.url s => Except.ok (urljoinHttps s)
  | UrlOrPart.part p =>
      match p.url with
      | some s => Except.ok (urljoinHttps s)
      | none =>
          Except.error (PErr.typeError ("expected str, bytes or os.PathLike object, not NoneType"))

/-- The dub-listing map built by `PlayerParser._parse_dubbing_data`:
`data-dubbing` attribute value (possibly absent) to dub name. -/
abbrev DubMap := List (Option String × String)

/-- One player-listing entry:
`(data-provide-dubbing value, data-player value)`. -/
abbrev PlayerEntry := Option String × Option String

/-- The `defaultdict(list)` built by
`PlayerParser._parse_players_data`: service name to its entries in
document order. -/
abbrev PlayersData := List (String × List PlayerEntry)

/-- The dict comprehension of `_parse_dubbing_data`: children with
nonempty stripped text, keyed by `data-dubbing`, in document order. -/
def dubFold (tags : List PTag) : DubMap :=
  tags.foldl
    (fun m tag =>
      if tag.text ≠ "" then dictInsert m (tag.get ("data-dubbing")) tag.text
      else m)
    []

/-- Embeds `PlayerParser._parse_dubbing_data` (`player_parser.py`
lines 73-95): the dub box is required, else `not_find("dubbing_box")`. -/
def parse_dubbing_data (dubbingBox : Option (List PTag)) : Except PErr DubMap :=
  match dubbingBox with
  | none => Except.error (not_find ("dubbing_box"))
  | some tags => Except.ok (dubFold tags)

/-- `defaultdict(list)` append: the new entry goes to the end of the
existing per-key list, or opens a new key at the end of the dict. -/
def appendEntry (m : PlayersData) (k : String) (e : PlayerEntry) : PlayersData :=
  if m.any (fun p => p.1 == k) then
    m.map (fun p => if p.1 == k then (p.1, p.2 ++ [e]) else p)
  else m ++ [(k, [e])]

/-- The loop of `_parse_players_data`: children with nonempty stripped
text are appended, keyed by that text (the service name), each
carrying the single-pair dict of its declared dub id and player URL. -/
def playersFold (tags : List PTag) : PlayersData :=
  tags.foldl
    (fun m tag =>
      if tag.text ≠ "" then
        appendEntry m tag.text (tag.get ("data-provide-dubbing"), tag.get ("data-player"))
      else m)
    []

/-- Embeds `PlayerParser._parse_players_data` (`player_parser.py`
lines 97-126): the players box is required, else
`not_find("players_box")`. -/
def parse_players_data (playersBox : Option (List PTag)) : Except PErr PlayersData :=
  match playersBox with
  | none => Except.error (not_find ("players_box"))
  | some tags => Except.ok (playersFold tags)

/-- `dubbing_data.get(episode_id)`: lookup in the dub map by the raw
declared id (which may be `None`). -/
def dubGet (dub : DubMap) (k : Option String) : Option String :=
  dictGet dub k

/-- The loop body of `_create_single_player`: for each entry, append
the raw declared id to `episode_ids` and a `PlayerPart` with
`int(episode_id)` and `dubbing_data.get(episode_id)` to
`player_parts`; an `int` failure aborts the whole construction. -/
def createParts (name : String) (dub : DubMap) :
    List PlayerEntry → Except PErr (List (Option String) × List PlayerPart)
  | [] => Except.ok ([], [])
  | (eid, eurl) :: rest =>
      match pyIntKey eid with
      | Except.error e => Except.error e
      | Except.ok n =>
          match createParts name dub rest with
          | Except.error e => Except.error e
          | Except.ok (ids, parts) =>
              Except.ok (eid :: ids,
                PlayerPart.mk name eurl n (dubGet dub eid) :: parts)

/-- Embeds `PlayerParser._create_single_player` (`player_parser.py`
lines 177-209). -/
def create_single_player (name : String) (entries : List PlayerEntry)
    (dub : DubMap) : Except PErr Player :=
  match createParts name dub entries with
  | Except.error e => Except.error e
  | Except.ok (ids, parts) => Except.ok (Player.mk name ids parts)

/-- Embeds `PlayerParser._create_player_instances` (`player_parser.py`
lines 158-175). -/
def create_player_instances (pd : PlayersData) (dub : DubMap) :
    Except PErr (List Player) :=
  pd.mapM (fun p => create_single_player p.1 p.2 dub)

/-- Embeds `PlayerParser._build_player_object` (`player_parser.py`
lines 128-156): instances first, then `all_dubbing` as the dub-map
keys coerced with `int(...)` in encounter order, then `all_players` as
the dub-map values in the same order. -/
def build_player_object (title : String) (pd : PlayersData) (dub : DubMap) :
    Except PErr PlayerParseInfo :=
  match create_player_instances pd dub with
  | Except.error e => Except.error e
  | Except.ok instances =>
      match dub.mapM (fun kv => pyIntKey kv.1) with
      | Except.error e => Except.error e
      | Except.ok allDub =>
          Except.ok (PlayerParseInfo.mk title allDub (dub.map (fun kv => kv.2)) instances)

/-- The document regions `parse_player` queries, as the markup adapter
reports them: the optional episode-title span (its stripped text), the
`video-dubbing` box and the `video-players` box with their child
nodes. -/
structure Soup where
  titleText : Option String
  dubbingBox : Option (List PTag)
  playersBox : Option (List PTag)
deriving DecidableEq, Repr

/-- Embeds `PlayerParser.parse_player` (`player_parser.py` lines
33-58): title (empty when the span is absent), then dub box, then
players box, then assembly. -/
def parse_player (s : Soup) : Except PErr PlayerParseInfo :=
  let title := s.titleText.getD ""
  match parse_dubbing_data s.dubbingBox with
  | Except.error e => Except.error e
  | Except.ok dub =>
      match parse_players_data s.playersBox with
      | Except.error e => Except.error e
      | Except.ok pd => build_player_object title pd dub

/-- Embeds `BasePlayer.raise_for_data` (`abstract.py` lines 113-138)
on a dict argument: `StatusError` when the status field is not the
literal `success`, else `NotFindError` when the content field is
absent or falsy. -/
def raise_for_data (data : List (String × JVal)) : Except PErr Unit :=
  if !(optIsSuccess (dictGet data ("status"))) then
    Except.error (PErr.statusError
      ("Неожиданный статус ответа: " ++ pyStrOpt (dictGet data ("status"))))
  else if !(optTruthy (dictGet data ("content"))) then
    Except.error (PErr.notFind ("Не был обнаружен " ++ sq ++ "content" ++ sq))
  else Except.ok ()

/-- Embeds `MpdParser.parse_aniboom_html` (`mpd_parser.py` lines
13-28).  The collaborator function `findVideo` models the
BeautifulSoup query `soup.find("div", id="video")` over the fetched
document text. -/
def parse_aniboom_html (findVideo : String → Option PTag) (html : String) :
    Except PErr JVal :=
  match findVideo html with
  | none => Except.error (not_find ("\"div\", id=\"video\""))
  | some block =>
      match block.get ("data-parameters") with
      | none => Except.error (not_find ("data_parameters"))
      | some s =>
          if s = "" then Except.error (not_find ("data_parameters"))
          else
            match jloads s with
            | Except.ok v => Except.ok v
            | Except.error (PErr.jsonDecodeError m) =>
                Except.error (PErr.dataIncorrect ("Данные не корректны: " ++ m))
            | Except.error e => Except.error e

/-- Message of the `DataIncorrectError` raised by
`MpdController.get_full_data` when a key or a nested decode fails
(`mpd.py` line 43); `str(e)` of a `KeyError` is the quoted key. -/
def embedFailMsg : PErr → String
  | PErr.keyError k => "Failed to parse embed data: " ++ sq ++ k ++ sq
  | PErr.jsonDecodeError m => "Failed to parse embed data: " ++ m
  | _ => "Failed to parse embed data"

/-- The `try` body of `MpdController.get_full_data` (`mpd.py` lines
30-41): the `EmbedData(...)` keyword arguments evaluated in source
order, with `mpd_url` and `m3u8_url` each a nested
`json.loads(...)["src"]`. -/
def embedBuild (embed : JVal) : Except PErr EmbedData :=
  match pyGetItem embed ("id") with
  | Except.error e => Except.error e
  | Except.ok i =>
  match pyGetItem embed ("domain") with
  | Except.error e => Except.error e
  | Except.ok d =>
  match pyGetItem embed ("duration") with
  | Except.error e => Except.error e
  | Except.ok du =>
  match pyGetItem embed ("poster") with
  | Except.error e => Except.error e
  | Except.ok po =>
  match ((pyGetItem embed ("dash")).bind pyLoads).bind (fun j => pyGetItem j ("src")) with
  | Except.error e => Except.error e
  | Except.ok mpd =>
  match ((pyGetItem embed ("hls")).bind pyLoads).bind (fun j => pyGetItem j ("src")) with
  | Except.error e => Except.error e
  | Except.ok m3u8 =>
  match pyGetItem embed ("quality") with
  | Except.error e => Except.error e
  | Except.ok q =>
  match pyGetItem embed ("qualityVideo") with
  | Except.error e => Except.error e
  | Except.ok qv =>
  match pyGetItem embed ("rating") with
  | Except.error e => Except.error e
  | Except.ok r => Except.ok (EmbedData.mk i d du po mpd m3u8 q qv r)

/-- The `except (KeyError, json.JSONDecodeError)` clause of
`MpdController.get_full_data` (`mpd.py` lines 42-43): both collapse to
a single `DataIncorrectError`; other exceptions pass through. -/
def embedCatch : Except PErr EmbedData → Except PErr EmbedData
  | Except.ok e => Except.ok e
  | Except.error (PErr.keyError k) =>
      Except.error (PErr.dataIncorrect (embedFailMsg (PErr.keyError k)))
  | Except.error (PErr.jsonDecodeError m) =>
      Except.error (PErr.dataIncorrect (embedFailMsg (PErr.jsonDecodeError m)))
  | Except.error e => Except.error e

/-- The `EmbedData(...)` construction inside
`MpdController.get_full_data` (`mpd.py` lines 30-43) under its
`try`/`except` wrapper. -/
def embedFromParams (embed : JVal) : Except PErr EmbedData :=
  embedCatch (embedBuild embed)

/-- Embeds `MpdController.get_full_data` (`mpd.py` lines 26-43)
composed with `_fetch_embed_data` (lines 45-49): normalize the
reference, fetch it (the transport outcome is the explicit argument),
extract and decode `data-parameters`, then build the `EmbedData`. -/
def get_full_data (findVideo : String → Option PTag) (t : Transport)
    (u : UrlOrPart) : Except PErr EmbedData :=
  (normalize_url u).bind (fun nurl =>
    (base_fetch nurl t).bind (fun html =>
      (parse_aniboom_html findVideo html).bind (fun embed =>
        embedFromParams embed)))

/-- The class constant `BaseCVH.URL_PLAYLIST` (`abstract.py` line
196). -/
def URL_PLAYLIST : String := "https://plapi.cdnvideohub.com/api/v1/player/sv/playlist"

/-- The class constant `BaseCVH.URL_VIDEO` (`abstract.py` line 197). -/
def URL_VIDEO : String := "https://plapi.cdnvideohub.com/api/v1/player/sv/video/"

/-- Embeds `Tag.__getitem__` (`player["data-publisher-id"]` and the
two other subscriptions): raises `KeyError` when the attribute is
absent. -/
def tagGetItem (t : PTag) (k : String) : Except PErr String :=
  match t.get k with
  | some v => Except.ok v
  | none => Except.error (PErr.keyError k)

/-- Embeds `BaseCVH._build_playlist_params` (`abstract.py` lines
210-215): the dict literal with keys `pub`, `aggr`, `id`, whose value
expressions are evaluated in source order. -/
def build_playlist_params (player : PTag) :
    Except PErr (List (String × String)) :=
  match tagGetItem player ("data-publisher-id") with
  | Except.error e => Except.error e
  | Except.ok p =>
  match tagGetItem player ("data-aggregator") with
  | Except.error e => Except.error e
  | Except.ok a =>
  match tagGetItem player ("data-title-id") with
  | Except.error e => Except.error e
  | Except.ok i => Except.ok [("pub", p), ("aggr", a), ("id", i)]

/-- The `CvhItems(...)` construction inside `BaseCVH._data_correct`
(`abstract.py` lines 222-230), keys read in source order. -/
def cvhItemOf (item : JVal) : Except PErr CvhItems := do
  let c ← pyGetItem item ("cvhId")
  let n ← pyGetItem item ("name")
  let v ← pyGetItem item ("vkId")
  let vs ← pyGetItem item ("voiceStudio")
  let vt ← pyGetItem item ("voiceType")
  let s ← pyGetItem item ("season")
  let e ← pyGetItem item ("episode")
  pure (CvhItems.mk c n v vs vt s e)

/-- Embeds `BaseCVH._data_correct` (`abstract.py` lines 217-232): the
whole `CvhData` is built before anything is returned, so a missing key
on any item aborts the construction with nothing produced. -/
def data_correct (data : JVal) : Except PErr CvhData := do
  let t ← pyGetItem data ("titleName")
  let sf ← pyGetItem data ("isSerial")
  let itemsV ← pyGetItem data ("items")
  let xs ← pyIter itemsV
  let items ← xs.mapM cvhItemOf
  pure (CvhData.mk t sf items)

/-- The `except KeyError` and `except json.JSONDecodeError` clauses of
`CVH.get_playlist` (`cvh/__init__.py` lines 70-73): `error.args[-1]`
of a `KeyError` is the missing key. -/
def cvhCatch : PErr → PErr
  | PErr.keyError k =>
      PErr.dataIncorrect ("Не был найден ключ: [" ++ k ++ "]")
  | PErr.jsonDecodeError _ =>
      PErr.dataIncorrect ("Ошибка при парсинге " ++ sq ++ "json" ++ sq)
  | e => e

/-- A request issued to the HTTP collaborator: target URL and query
parameters. -/
structure Request where
  url : String
  params : List (String × String)
deriving DecidableEq, Repr

/-- Embeds `CVH.get_playlist` (`cvh/__init__.py` lines 43-73) together
with `get_iframe` (lines 75-85), returning both the result and the
list of requests issued, in order.  `findPlayer` models
`BeautifulSoup(...).find("video-player")`; the two `Transport`
arguments are the outcomes of the iframe fetch and of the playlist
fetch.  The playlist query parameters are built before the playlist
fetch runs (Python evaluates the `params=` argument first), inside the
`try` block, so a missing attribute is caught by the same `KeyError`
handler as a missing playlist key and no playlist request is issued;
the `domain` constructor argument is used only for request headers and
never reaches any URL. -/
def get_playlist (_domain : String) (findPlayer : String → Option PTag)
    (iframeT playlistT : Transport) (u : UrlOrPart) :
    Except PErr CvhData × List Request :=
  match normalize_url u with
  | Except.error e => (Except.error e, [])
  | Except.ok iurl =>
      match base_fetch iurl iframeT with
      | Except.error e => (Except.error e, [Request.mk iurl []])
      | Except.ok html =>
          match findPlayer html with
          | none => (Except.error (not_find ("video-player")), [Request.mk iurl []])
          | some player =>
              match build_playlist_params player with
              | Except.error e => (Except.error (cvhCatch e), [Request.mk iurl []])
              | Except.ok ps =>
                  match base_fetch URL_PLAYLIST playlistT with
                  | Except.error e =>
                      (Except.error e, [Request.mk iurl [], Request.mk URL_PLAYLIST ps])
                  | Except.ok body =>
                      match (jloads body).bind data_correct with
                      | Except.error e =>
                          (Except.error (cvhCatch e),
                           [Request.mk iurl [], Request.mk URL_PLAYLIST ps])
                      | Except.ok d =>
                          (Except.ok d,
                           [Request.mk iurl [], Request.mk URL_PLAYLIST ps])

/-- Helper: `createParts` keeps every entry of the per-service list,
in order, recording exactly the raw declared ids. -/
theorem createParts_ids (name : String) (dub : DubMap) :
    ∀ (entries : List PlayerEntry) (ids : List (Option String))
      (parts : List PlayerPart),
      createParts name dub entries = Except.ok (ids, parts) →
      ids = entries.map Prod.fst ∧ parts.length = entries.length := by
  intro entries
  induction entries with
  | nil =>
      intro ids parts h
      simp only [createParts] at h
      injection h with h
      injection h with h1 h2
      subst h1; subst h2
      simp
  | cons e rest ih =>
      intro ids parts h
      obtain ⟨eid, eurl⟩ := e
      simp only [createParts] at h
      cases hi : pyIntKey eid with
      | error err => rw [hi] at h; exact absurd h (by simp)
      | ok n =>
          rw [hi] at h
          cases hr : createParts name dub rest with
          | error err => rw [hr] at h; exact absurd h (by simp)
          | ok p =>
              obtain ⟨ids0, parts0⟩ := p
              rw [hr] at h
              injection h with h
              injection h with h1 h2
              obtain ⟨hids, hlen⟩ := ih ids0 parts0 hr
              subst h1; subst h2
              simp [hids, hlen]

/-- Helper: when every declared id coerces with `int(...)`,
`createParts` succeeds and each part's `dubbing_name` is the
`dict.get` of its entry's raw declared id. -/
theorem createParts_names (name : String) (dub : DubMap) :
    ∀ (entries : List PlayerEntry),
      entries.all (fun e => isOkE (pyIntKey e.1)) = true →
      ∃ ids parts, createParts name dub entries = Except.ok (ids, parts) ∧
        parts.map (fun p => p.dubbing_name) =
          entries.map (fun e => dubGet dub e.1) := by
  intro entries
  induction entries with
  | nil =>
      intro _
      exact ⟨[], [], rfl, rfl⟩
  | cons e rest ih =>
      intro h
      obtain ⟨eid, eurl⟩ := e
      simp only [List.all_cons, Bool.and_eq_true] at h
      obtain ⟨h1, h2⟩ := h
      obtain ⟨ids0, parts0, hr, hnames⟩ := ih h2
      cases hi : pyIntKey eid with
      | error err => rw [hi] at h1; exact absurd h1 (by simp [isOkE])
      | ok n =>
          refine ⟨eid :: ids0, PlayerPart.mk name eurl n (dubGet dub eid) :: parts0, ?_, ?_⟩
          · simp only [createParts, hi, hr]
          · simp [hnames]

/-- Claim C2, counterexample: a catalog document whose player-listing
block lists dub id 12 twice for the service Kodik.  The parser keeps
BOTH entries — `ids` is `["12", "12"]` and there are two parts, one
per listing with its own URL — so later entries do not overwrite
earlier ones and the resulting group does not hold at most one entry
per dub id: `_parse_players_data` appends a fresh single-pair dict to
the per-service list instead of inserting into a map. -/
theorem c2_counterexample :
    parse_player (Soup.mk none (some [PTag.mk "Sub" [("data-dubbing", "12")]])
      (some [PTag.mk "Kodik" [("data-provide-dubbing", "12"), ("data-player", "//u1")],
             PTag.mk "Kodik" [("data-provide-dubbing", "12"), ("data-player", "//u2")]])) =
    Except.ok (PlayerParseInfo.mk "" [12] ["Sub"]
      [Player.mk "Kodik" [some "12", some "12"]
        [PlayerPart.mk "Kodik" (some "//u1") 12 (some "Sub"),
         PlayerPart.mk "Kodik" (some "//u2") 12 (some "Sub")]]) := by
  rfl

/-- Claim C2, amended: in `PlayerCatalogParser`, when the
player-listing block lists the same dub id more than once for a single
service, each listing is APPENDED to that service's per-service list
in document order (no last-wins overwrite), so the resulting group
carries exactly one entry per listing and may contain the same dub id
several times: a successfully built `Player` has `ids` equal to the
raw declared ids of its entries, duplicates included, and one part per
entry. -/
theorem c2_entries_appended (name : String) (entries : List PlayerEntry)
    (dub : DubMap) (pl : Player)
    (h : create_single_player name entries dub = Except.ok pl) :
    pl.ids = entries.map Prod.fst ∧ pl.players.length = entries.length := by
  unfold create_single_player at h
  cases hc : createParts name dub entries with
  | error err => rw [hc] at h; exact absurd h (by simp)
  | ok p =>
      obtain ⟨ids, parts⟩ := p
      rw [hc] at h
      injection h with h
      subst h
      exact createParts_ids name dub entries ids parts hc

/-- Witness for `c2_entries_appended` at the duplicate-id service of
the counterexample document. -/
theorem c2_witness :
    (Player.mk "Kodik" [some "12", some "12"]
      [PlayerPart.mk "Kodik" (some "//u1") 12 (some "Sub"),
       PlayerPart.mk "Kodik" (some "//u2") 12 (some "Sub")]).ids =
      ([((some "12" : Option String), (some "//u1" : Option String)),
        (some "12", some "//u2")]).map Prod.fst ∧
    (Player.mk "Kodik" [some "12", some "12"]
      [PlayerPart.mk "Kodik" (some "//u1") 12 (some "Sub"),
       PlayerPart.mk "Kodik" (some "//u2") 12 (some "Sub")]).players.length =
      ([((some "12" : Option String), (some "//u1" : Option String)),
        (some "12", some "//u2")]).length :=
  c2_entries_appended "Kodik"
    [(some "12", some "//u1"), (some "12", some "//u2")]
    [(some "12", "Sub")] _ rfl

/-- Claim C3, counterexample: a catalog document whose only player
declares dub id 99, absent from the dub map (which holds only id 12).
The part is built successfully but its `dubbing_name` is `None`
(`dict.get` with no default), not the string `"unknown"`. -/
theorem c3_counterexample :
    parse_player (Soup.mk none (some [PTag.mk "Sub" [("data-dubbing", "12")]])
      (some [PTag.mk "Kodik" [("data-provide-dubbing", "99"), ("data-player", "//u")]])) =
    Except.ok (PlayerParseInfo.mk "" [12] ["Sub"]
      [Player.mk "Kodik" [some "99"]
        [PlayerPart.mk "Kodik" (some "//u") 99 none]]) ∧
    (none : Option String) ≠ some "unknown" :=
  ⟨rfl, by decide⟩

/-- Claim C3, amended: for every `PlayerPart` built by the parser
whose declared dub id is absent from the dub-name map, the part's
`dubbing_name` is `None` (the default of `dict.get`), and constructing
the part never fails on that account: whenever every declared id of a
service coerces with `int(...)`, the `Player` is built — regardless of
the dub map — and each part's `dubbing_name` is exactly the `dict.get`
lookup of its raw declared id (`None` when absent). -/
theorem c3_absent_dub_gives_none (name : String) (entries : List PlayerEntry)
    (dub : DubMap)
    (h : entries.all (fun e => isOkE (pyIntKey e.1)) = true) :
    ∃ pl, create_single_player name entries dub = Except.ok pl ∧
      pl.players.map (fun p => p.dubbing_name) =
        entries.map (fun e => dubGet dub e.1) := by
  obtain ⟨ids, parts, hc, hnames⟩ := createParts_names name dub entries h
  exact ⟨Player.mk name ids parts, by unfold create_single_player; rw [hc], hnames⟩

/-- Witness for `c3_absent_dub_gives_none`: one entry declaring dub id
99 against a dub map holding only id 12. -/
theorem c3_witness :
    ∃ pl, create_single_player "Kodik" [(some "99", some "//u")]
        [(some "12", "Sub")] = Except.ok pl ∧
      pl.players.map (fun p => p.dubbing_name) =
        ([((some "99" : Option String), (some "//u" : Option String))]).map
          (fun e => dubGet [(some "12", "Sub")] e.1) :=
  c3_absent_dub_gives_none "Kodik" [(some "99", some "//u")]
    [(some "12", "Sub")] rfl

/-- Claim C4, failing input evaluated: a one-entry catalog document.
The built group records `ids = ["12"]` — the RAW STRING dub id — while
the part records `dubbing_id = int("12") = 12`.  Lengths agree, but in
Python `parts[0].dubbing_id == ids[0]` compares `12 == "12"`, which is
`False`, contradicting the claimed invariant and the `Player`
dataclass's own annotation `ids: List[int]` (`models/__init__.py`). -/
theorem c4_failing_input :
    parse_player (Soup.mk none (some [PTag.mk "Sub" [("data-dubbing", "12")]])
      (some [PTag.mk "Kodik" [("data-provide-dubbing", "12"), ("data-player", "//u")]])) =
    Except.ok (PlayerParseInfo.mk "" [12] ["Sub"]
      [Player.mk "Kodik" [some "12"]
        [PlayerPart.mk "Kodik" (some "//u") 12 (some "Sub")]]) := by
  rfl

/-- Claim C6, counterexample: a catalog document whose dub map has the
non-numeric key `"abc"`.  The coercion `int("abc")` raises the builtin
`ValueError`, which nothing catches — the parse fails with
`ValueError`, not with `DataIncorrect` as claimed. -/
theorem c6_counterexample :
    parse_player (Soup.mk none (some [PTag.mk "Name" [("data-dubbing", "abc")]])
      (some [PTag.mk "Kodik" [("data-provide-dubbing", "12"), ("data-player", "//u")]])) =
    Except.error (PErr.valueError
      ("invalid literal for int() with base 10: " ++ sq ++ "abc" ++ sq)) := by
  rfl

/-- Claim C6, amended: `all_dub_ids` is the dub map's keys in
encounter order, each coerced with `int(...)`, and `all_service_titles`
is the dub map's values (the dub names) in the same order; when a key
is non-numeric the coercion fails with the uncaught builtin
`ValueError` (not `DataIncorrect`), which propagates out of the
assembly as-is. -/
theorem c6_all_dubbing_from_dub_map (title : String) (pd : PlayersData)
    (dub : DubMap) (inst : List Player)
    (hins : create_player_instances pd dub = Except.ok inst) :
    (∀ ids, dub.mapM (fun kv => pyIntKey kv.1) = Except.ok ids →
      build_player_object title pd dub =
        Except.ok (PlayerParseInfo.mk title ids (dub.map (fun kv => kv.2)) inst)) ∧
    (∀ e, dub.mapM (fun kv => pyIntKey kv.1) = Except.error e →
      build_player_object title pd dub = Except.error e) := by
  constructor
  · intro ids hids
    unfold build_player_object
    rw [hins, hids]
  · intro e he
    unfold build_player_object
    rw [hins, he]

/-- Witness for `c6_all_dubbing_from_dub_map`: a numeric dub map
yields the coerced keys and the dub names in order; a dub map with the
key `"abc"` aborts the assembly with `ValueError`. -/
theorem c6_witness :
    build_player_object "T" [("Kodik", [(some "12", some "//u")])]
      [(some "12", "Sub"), (some "46", "Dub")] =
      Except.ok (PlayerParseInfo.mk "T" [12, 46] ["Sub", "Dub"]
        [Player.mk "Kodik" [some "12"]
          [PlayerPart.mk "Kodik" (some "//u") 12 (some "Sub")]]) ∧
    build_player_object "T" [("Kodik", [(some "12", some "//u")])]
      [(some "abc", "Name")] =
      Except.error (PErr.valueError
        ("invalid literal for int() with base 10: " ++ sq ++ "abc" ++ sq)) :=
  ⟨(c6_all_dubbing_from_dub_map "T" [("Kodik", [(some "12", some "//u")])]
      [(some "12", "Sub"), (some "46", "Dub")]
      [Player.mk "Kodik" [some "12"]
        [PlayerPart.mk "Kodik" (some "//u") 12 (some "Sub")]] rfl).1 [12, 46] rfl,
   (c6_all_dubbing_from_dub_map "T" [("Kodik", [(some "12", some "//u")])]
      [(some "abc", "Name")]
      [Player.mk "Kodik" [some "12"]
        [PlayerPart.mk "Kodik" (some "//u") 12 none]] rfl).2
      (PErr.valueError ("invalid literal for int() with base 10: " ++ sq ++ "abc" ++ sq)) rfl⟩

/-- Claim C5: `raise_for_data` raises `StatusError` whenever the
envelope's status field is not the literal `success` — and in that
case the result does not depend on the content field at all (any two
envelopes with the same status value validate identically, whatever
their content) — while a `success` status with an absent or falsy
content field raises the `NotFindError` naming `content`. -/
theorem c5_envelope_validation (d d' : List (String × JVal)) :
    (optIsSuccess (dictGet d ("status")) = false →
      raise_for_data d = Except.error (PErr.statusError
        ("Неожиданный статус ответа: " ++ pyStrOpt (dictGet d ("status"))))) ∧
    (optIsSuccess (dictGet d ("status")) = false →
      dictGet d' ("status") = dictGet d ("status") →
      raise_for_data d' = raise_for_data d) ∧
    (optIsSuccess (dictGet d ("status")) = true →
      optTruthy (dictGet d ("content")) = false →
      raise_for_data d = Except.error (PErr.notFind
        ("Не был обнаружен " ++ sq ++ "content" ++ sq))) := by
  refine ⟨?_, ?_, ?_⟩
  · intro h
    unfold raise_for_data
    rw [h]
    rfl
  · intro h hsame
    unfold raise_for_data
    rw [h, hsame, h]
    rfl
  · intro h hc
    unfold raise_for_data
    rw [h, hc]
    rfl

/-- Witness for `c5_envelope_validation`: an `error` envelope raises
`StatusError` and validates identically with or without content; a
`success` envelope without content raises the `NotFindError` naming
`content`. -/
theorem c5_witness :
    raise_for_data [("status", JVal.str "error"), ("content", JVal.str "X")] =
      Except.error (PErr.statusError ("Неожиданный статус ответа: error")) ∧
    raise_for_data [("status", JVal.str "error")] =
      raise_for_data [("status", JVal.str "error"), ("content", JVal.str "X")] ∧
    raise_for_data [("status", JVal.str "success")] =
      Except.error (PErr.notFind ("Не был обнаружен " ++ sq ++ "content" ++ sq)) :=
  ⟨(c5_envelope_validation [("status", JVal.str "error"), ("content", JVal.str "X")]
      [("status", JVal.str "error")]).1 rfl,
   (c5_envelope_validation [("status", JVal.str "error"), ("content", JVal.str "X")]
      [("status", JVal.str "error")]).2.1 rfl rfl,
   (c5_envelope_validation [("status", JVal.str "success")] []).2.2 rfl rfl⟩

/-- Claim C1, counterexample: a concrete `AlternatePlaylistResolver`
call whose iframe fetch reports HTTP 404.  The caller receives
`DataIncorrectError("HTTP error 404 for https://kodik.info/x")` — the
transport failure was reclassified as `DataIncorrect` by
`BaseMpd._fetch`, not propagated unchanged. -/
theorem c1_counterexample :
    (get_playlist "https://animego.me" (fun _ => none)
      (Transport.httpStatus 404) (Transport.ok "") (UrlOrPart.url "//kodik.info/x")).1 =
    Except.error (PErr.dataIncorrect ("HTTP error 404 for https://kodik.info/x")) := by
  rfl

/-- Claim C1, amended: in both resolvers every fetch goes through
`BaseMpd._fetch`, which catches `httpx.HTTPStatusError` (non-2xx) and
`httpx.RequestError` (connection failure) and re-raises both as
`DataIncorrectError` wrapping the status code or error detail and the
URL; the transport failure therefore reaches the caller reclassified
as `DataIncorrect` — never as `NotFound` or `StatusError`, and never
as the original `httpx` error. -/
theorem c1_transport_reclassified (url s dom m : String) (code : Nat)
    (findVideo : String → Option PTag) (findPlayer : String → Option PTag)
    (pT : Transport) :
    base_fetch url (Transport.httpStatus code) =
      Except.error (PErr.dataIncorrect (httpErrMsg code url)) ∧
    base_fetch url (Transport.requestError m) =
      Except.error (PErr.dataIncorrect (reqErrMsg url m)) ∧
    get_full_data findVideo (Transport.httpStatus code) (UrlOrPart.url s) =
      Except.error (PErr.dataIncorrect (httpErrMsg code (urljoinHttps s))) ∧
    get_full_data findVideo (Transport.requestError m) (UrlOrPart.url s) =
      Except.error (PErr.dataIncorrect (reqErrMsg (urljoinHttps s) m)) ∧
    (get_playlist dom findPlayer (Transport.httpStatus code) pT (UrlOrPart.url s)).1 =
      Except.error (PErr.dataIncorrect (httpErrMsg code (urljoinHttps s))) ∧
    (get_playlist dom findPlayer (Transport.requestError m) pT (UrlOrPart.url s)).1 =
      Except.error (PErr.dataIncorrect (reqErrMsg (urljoinHttps s) m)) :=
  ⟨rfl, rfl, rfl, rfl, rfl, rfl⟩

/-- Helper: inversion of a successful `Except.bind`. -/
theorem bindOk {α β : Type} (x : Except PErr α) (f : α → Except PErr β) (b : β)
    (h : x.bind f = Except.ok b) : ∃ a, x = Except.ok a ∧ f a = Except.ok b := by
  cases x with
  | error e => simp [Except.bind] at h
  | ok a => exact ⟨a, rfl, h⟩

/-- Helper: a successful `embedCatch` means the `try` body itself
succeeded with the same value. -/
theorem embedCatch_ok (x : Except PErr EmbedData) (E : EmbedData)
    (h : embedCatch x = Except.ok E) : x = Except.ok E := by
  cases x with
  | ok e => exact h
  | error e => cases e <;> simp [embedCatch] at h

/-- Helper: a successful `embedBuild` returns exactly the values of
its nested `json.loads(...)["src"]` chains in `mpd_url` and
`m3u8_url`. -/
theorem embedBuild_src (embed : JVal) (E : EmbedData)
    (h : embedBuild embed = Except.ok E) :
    ((pyGetItem embed ("dash")).bind pyLoads).bind (fun j => pyGetItem j ("src")) =
      Except.ok E.mpd_url ∧
    ((pyGetItem embed ("hls")).bind pyLoads).bind (fun j => pyGetItem j ("src")) =
      Except.ok E.m3u8_url := by
  unfold embedBuild at h
  cases h1 : pyGetItem embed ("id") with
  | error e => rw [h1] at h; simp at h
  | ok i =>
    rw [h1] at h
    cases h2 : pyGetItem embed ("domain") with
    | error e => rw [h2] at h; simp at h
    | ok d =>
      rw [h2] at h
      cases h3 : pyGetItem embed ("duration") with
      | error e => rw [h3] at h; simp at h
      | ok du =>
        rw [h3] at h
        cases h4 : pyGetItem embed ("poster") with
        | error e => rw [h4] at h; simp at h
        | ok po =>
          rw [h4] at h
          cases h5 : ((pyGetItem embed ("dash")).bind pyLoads).bind
              (fun j => pyGetItem j ("src")) with
          | error e => rw [h5] at h; simp at h
          | ok mpd =>
            rw [h5] at h
            cases h6 : ((pyGetItem embed ("hls")).bind pyLoads).bind
                (fun j => pyGetItem j ("src")) with
            | error e => rw [h6] at h; simp at h
            | ok m3u8 =>
              rw [h6] at h
              cases h7 : pyGetItem embed ("quality") with
              | error e => rw [h7] at h; simp at h
              | ok q =>
                rw [h7] at h
                cases h8 : pyGetItem embed ("qualityVideo") with
                | error e => rw [h8] at h; simp at h
                | ok qv =>
                  rw [h8] at h
                  cases h9 : pyGetItem embed ("rating") with
                  | error e => rw [h9] at h; simp at h
                  | ok r =>
                    rw [h9] at h
                    simp only [Except.ok.injEq] at h
                    subst h
                    exact ⟨rfl, rfl⟩

/-- Claim C7: for every successful `EmbedResolver` resolution, the
returned descriptor's `mpd_url` is exactly the `src` field of the
JSON object decoded from the embed map's `dash` string field, and
`m3u8_url` exactly the `src` field decoded from the `hls` string
field, with no transformation applied in between. -/
theorem c7_src_roundtrip (findVideo : String → Option PTag) (t : Transport)
    (u : UrlOrPart) (E : EmbedData)
    (h : get_full_data findVideo t u = Except.ok E) :
    ∃ nurl html embed,
      normalize_url u = Except.ok nurl ∧
      base_fetch nurl t = Except.ok html ∧
      parse_aniboom_html findVideo html = Except.ok embed ∧
      ((pyGetItem embed ("dash")).bind pyLoads).bind (fun j => pyGetItem j ("src")) =
        Except.ok E.mpd_url ∧
      ((pyGetItem embed ("hls")).bind pyLoads).bind (fun j => pyGetItem j ("src")) =
        Except.ok E.m3u8_url := by
  unfold get_full_data at h
  obtain ⟨nurl, hn, h⟩ := bindOk _ _ _ h
  obtain ⟨html, hf, h⟩ := bindOk _ _ _ h
  obtain ⟨embed, hp, h⟩ := bindOk _ _ _ h
  obtain ⟨hd, hh⟩ := embedBuild_src embed E (embedCatch_ok _ E h)
  exact ⟨nurl, html, embed, hn, hf, hp, hd, hh⟩

/-- Witness for `c7_src_roundtrip`: a complete embed page whose
`data-parameters` blob nests the `dash` and `hls` JSON strings; the
resolved descriptor's manifest URLs equal the decoded `src` fields. -/
theorem c7_witness :
    ∃ nurl html embed,
      normalize_url (UrlOrPart.url "//aniboom.one/embed/x") = Except.ok nurl ∧
      base_fetch nurl (Transport.ok "page") = Except.ok html ∧
      parse_aniboom_html
        (fun _ => some (PTag.mk "" [("data-parameters",
          "\x7b\"id\": \"V1\", \"domain\": \"aniboom.one\", \"duration\": 1440, \"poster\": \"https://p/i.jpg\", \"dash\": \"\x7b\\\"src\\\": \\\"https://a/m.mpd\\\"\x7d\", \"hls\": \"\x7b\\\"src\\\": \\\"https://a/m.m3u8\\\"\x7d\", \"quality\": true, \"qualityVideo\": 1080, \"rating\": \"R\"\x7d")]))
        html = Except.ok embed ∧
      ((pyGetItem embed ("dash")).bind pyLoads).bind (fun j => pyGetItem j ("src")) =
        Except.ok (EmbedData.mk (JVal.str "V1") (JVal.str "aniboom.one")
          (JVal.num 1440) (JVal.str "https://p/i.jpg") (JVal.str "https://a/m.mpd")
          (JVal.str "https://a/m.m3u8") (JVal.bool true) (JVal.num 1080)
          (JVal.str "R")).mpd_url ∧
      ((pyGetItem embed ("hls")).bind pyLoads).bind (fun j => pyGetItem j ("src")) =
        Except.ok (EmbedData.mk (JVal.str "V1") (JVal.str "aniboom.one")
          (JVal.num 1440) (JVal.str "https://p/i.jpg") (JVal.str "https://a/m.mpd")
          (JVal.str "https://a/m.m3u8") (JVal.bool true) (JVal.num 1080)
          (JVal.str "R")).m3u8_url :=
  c7_src_roundtrip _ _ _ _ rfl

/-- Helper: `tagGetItem` only ever raises the `KeyError` naming its
own attribute. -/
theorem tagGetItem_error (t : PTag) (key : String) (e : PErr)
    (h : tagGetItem t key = Except.error e) : e = PErr.keyError key := by
  unfold tagGetItem at h
  cases hg : t.get key with
  | some v => rw [hg] at h; simp at h
  | none =>
      rw [hg] at h
      exact (Except.error.inj h).symm

/-- Helper: a failing `_build_playlist_params` fails with the
`KeyError` of one of its three attributes. -/
theorem buildParams_error_key (player : PTag) (k : String)
    (hk : build_playlist_params player = Except.error (PErr.keyError k)) :
    k = "data-publisher-id" ∨ k = "data-aggregator" ∨ k = "data-title-id" := by
  unfold build_playlist_params at hk
  cases t1 : tagGetItem player ("data-publisher-id") with
  | error e =>
      rw [t1] at hk
      have := tagGetItem_error player ("data-publisher-id") e t1
      subst this
      exact Or.inl (PErr.keyError.inj (Except.error.inj hk)).symm
  | ok p =>
      rw [t1] at hk
      cases t2 : tagGetItem player ("data-aggregator") with
      | error e =>
          rw [t2] at hk
          have := tagGetItem_error player ("data-aggregator") e t2
          subst this
          exact Or.inr (Or.inl (PErr.keyError.inj (Except.error.inj hk)).symm)
      | ok a =>
          rw [t2] at hk
          cases t3 : tagGetItem player ("data-title-id") with
          | error e =>
              rw [t3] at hk
              have := tagGetItem_error player ("data-title-id") e t3
              subst this
              exact Or.inr (Or.inr (PErr.keyError.inj (Except.error.inj hk)).symm)
          | ok i =>
              rw [t3] at hk
              simp at hk

/-- Claim C8: when the fetched iframe carries a `<video-player>`
element with the three attributes present, `get_playlist` issues the
playlist request against the constant `URL_PLAYLIST` endpoint — the
same for every input domain — with query parameters `pub`, `aggr`,
`id` holding exactly the three attribute values. -/
theorem c8_playlist_request (dom dom' : String)
    (findPlayer : String → Option PTag) (iT pT : Transport) (u : UrlOrPart)
    (nurl html : String) (player : PTag) (p a i : String)
    (hn : normalize_url u = Except.ok nurl)
    (hf : base_fetch nurl iT = Except.ok html)
    (hp : findPlayer html = some player)
    (h1 : player.get ("data-publisher-id") = some p)
    (h2 : player.get ("data-aggregator") = some a)
    (h3 : player.get ("data-title-id") = some i) :
    (get_playlist dom findPlayer iT pT u).2 =
      [Request.mk nurl [], Request.mk URL_PLAYLIST [("pub", p), ("aggr", a), ("id", i)]] ∧
    get_playlist dom findPlayer iT pT u = get_playlist dom' findPlayer iT pT u := by
  have hbp : build_playlist_params player =
      Except.ok [("pub", p), ("aggr", a), ("id", i)] := by
    simp only [build_playlist_params, tagGetItem, h1, h2, h3]
  constructor
  · unfold get_playlist
    simp only [hn, hf, hp, hbp]
    cases hb : base_fetch URL_PLAYLIST pT with
    | error e => rfl
    | ok body =>
        cases hj : (jloads body).bind data_correct with
        | error e => simp only [hj]
        | ok d => simp only [hj]
  · rfl

/-- Witness for `c8_playlist_request`: the spec scenario
`<video-player data-publisher-id="5" data-aggregator="x"
data-title-id="99">` issues the playlist request with query
`pub=5, aggr=x, id=99` against the constant endpoint, for two
different input domains. -/
theorem c8_witness :
    (get_playlist "https://animego.me"
      (fun _ => some (PTag.mk "" [("data-publisher-id", "5"),
        ("data-aggregator", "x"), ("data-title-id", "99")]))
      (Transport.ok "iframe") (Transport.ok "zzz") (UrlOrPart.url "//kodik.info/x")).2 =
      [Request.mk "https://kodik.info/x" [],
       Request.mk URL_PLAYLIST [("pub", "5"), ("aggr", "x"), ("id", "99")]] ∧
    get_playlist "https://animego.me"
      (fun _ => some (PTag.mk "" [("data-publisher-id", "5"),
        ("data-aggregator", "x"), ("data-title-id", "99")]))
      (Transport.ok "iframe") (Transport.ok "zzz") (UrlOrPart.url "//kodik.info/x") =
    get_playlist "https://other.example"
      (fun _ => some (PTag.mk "" [("data-publisher-id", "5"),
        ("data-aggregator", "x"), ("data-title-id", "99")]))
      (Transport.ok "iframe") (Transport.ok "zzz") (UrlOrPart.url "//kodik.info/x") :=
  c8_playlist_request "https://animego.me" "https://other.example"
    (fun _ => some (PTag.mk "" [("data-publisher-id", "5"),
      ("data-aggregator", "x"), ("data-title-id", "99")]))
    (Transport.ok "iframe") (Transport.ok "zzz") (UrlOrPart.url "//kodik.info/x")
    "https://kodik.info/x" "iframe"
    (PTag.mk "" [("data-publisher-id", "5"), ("data-aggregator", "x"),
      ("data-title-id", "99")])
    "5" "x" "99" rfl rfl rfl rfl rfl rfl

/-- Claim C9: with the playlist fetched, a `KeyError` anywhere in the
decode of the playlist body (any missing required key on the envelope
or on any item) fails the whole call with
`DataIncorrect("Не был найден ключ: [<key>]")` and no partial catalog,
and a playlist body that is not valid JSON fails with the fixed
`DataIncorrect` JSON-parse message. -/
theorem c9_playlist_errors (dom : String) (findPlayer : String → Option PTag)
    (iT pT : Transport) (u : UrlOrPart) (nurl html : String) (player : PTag)
    (ps : List (String × String)) (body : String)
    (hn : normalize_url u = Except.ok nurl)
    (hf : base_fetch nurl iT = Except.ok html)
    (hp : findPlayer html = some player)
    (hps : build_playlist_params player = Except.ok ps)
    (hb : base_fetch URL_PLAYLIST pT = Except.ok body) :
    (∀ k, (jloads body).bind data_correct = Except.error (PErr.keyError k) →
      get_playlist dom findPlayer iT pT u =
        (Except.error (PErr.dataIncorrect ("Не был найден ключ: [" ++ k ++ "]")),
         [Request.mk nurl [], Request.mk URL_PLAYLIST ps])) ∧
    (∀ m, jloads body = Except.error (PErr.jsonDecodeError m) →
      get_playlist dom findPlayer iT pT u =
        (Except.error (PErr.dataIncorrect ("Ошибка при парсинге " ++ sq ++ "json" ++ sq)),
         [Request.mk nurl [], Request.mk URL_PLAYLIST ps])) := by
  constructor
  · intro k hj
    unfold get_playlist
    simp only [hn, hf, hp, hps, hb, hj]
    rfl
  · intro m hj
    have hj2 : (jloads body).bind data_correct =
        Except.error (PErr.jsonDecodeError m) := by
      rw [hj]
      rfl
    unfold get_playlist
    simp only [hn, hf, hp, hps, hb, hj2]
    rfl

/-- Witness for `c9_playlist_errors`: a playlist body whose single
item lacks `vkId` yields `DataIncorrect` naming `vkId` with both
requests issued and no catalog; a non-JSON body yields the fixed
JSON-parse `DataIncorrect`. -/
theorem c9_witness :
    get_playlist "https://animego.me"
      (fun _ => some (PTag.mk "" [("data-publisher-id", "5"),
        ("data-aggregator", "x"), ("data-title-id", "99")]))
      (Transport.ok "iframe")
      (Transport.ok "\x7b\"titleName\": \"T\", \"isSerial\": true, \"items\": [\x7b\"cvhId\": 1, \"name\": \"\", \"voiceStudio\": \"s\", \"voiceType\": \"t\", \"season\": 1, \"episode\": 2\x7d]\x7d")
      (UrlOrPart.url "//kodik.info/x") =
      (Except.error (PErr.dataIncorrect ("Не был найден ключ: [vkId]")),
       [Request.mk "https://kodik.info/x" [],
        Request.mk URL_PLAYLIST [("pub", "5"), ("aggr", "x"), ("id", "99")]]) ∧
    get_playlist "https://animego.me"
      (fun _ => some (PTag.mk "" [("data-publisher-id", "5"),
        ("data-aggregator", "x"), ("data-title-id", "99")]))
      (Transport.ok "iframe") (Transport.ok "not json")
      (UrlOrPart.url "//kodik.info/x") =
      (Except.error (PErr.dataIncorrect ("Ошибка при парсинге " ++ sq ++ "json" ++ sq)),
       [Request.mk "https://kodik.info/x" [],
        Request.mk URL_PLAYLIST [("pub", "5"), ("aggr", "x"), ("id", "99")]]) :=
  ⟨(c9_playlist_errors "https://animego.me"
      (fun _ => some (PTag.mk "" [("data-publisher-id", "5"),
        ("data-aggregator", "x"), ("data-title-id", "99")]))
      (Transport.ok "iframe")
      (Transport.ok "\x7b\"titleName\": \"T\", \"isSerial\": true, \"items\": [\x7b\"cvhId\": 1, \"name\": \"\", \"voiceStudio\": \"s\", \"voiceType\": \"t\", \"season\": 1, \"episode\": 2\x7d]\x7d")
      (UrlOrPart.url "//kodik.info/x") "https://kodik.info/x" "iframe"
      (PTag.mk "" [("data-publisher-id", "5"), ("data-aggregator", "x"),
        ("data-title-id", "99")])
      [("pub", "5"), ("aggr", "x"), ("id", "99")]
      "\x7b\"titleName\": \"T\", \"isSerial\": true, \"items\": [\x7b\"cvhId\": 1, \"name\": \"\", \"voiceStudio\": \"s\", \"voiceType\": \"t\", \"season\": 1, \"episode\": 2\x7d]\x7d"
      rfl rfl rfl rfl rfl).1 "vkId" rfl,
   (c9_playlist_errors "https://animego.me"
      (fun _ => some (PTag.mk "" [("data-publisher-id", "5"),
        ("data-aggregator", "x"), ("data-title-id", "99")]))
      (Transport.ok "iframe") (Transport.ok "not json")
      (UrlOrPart.url "//kodik.info/x") "https://kodik.info/x" "iframe"
      (PTag.mk "" [("data-publisher-id", "5"), ("data-aggregator", "x"),
        ("data-title-id", "99")])
      [("pub", "5"), ("aggr", "x"), ("id", "99")] "not json"
      rfl rfl rfl rfl rfl).2 "Expecting value" rfl⟩

/-- Claim C10: when the iframe holds a `<video-player>` element that
lacks one of the three required attributes, `get_playlist` fails with
the missing-key `DataIncorrect` (the same handler as missing playlist
keys, because `_build_playlist_params` runs inside the `try` block),
not with `NotFound`, and the request trace shows that no playlist
request was issued; the failing key is one of the three attribute
names. -/
theorem c10_missing_attr (dom : String) (findPlayer : String → Option PTag)
    (iT pT : Transport) (u : UrlOrPart) (nurl html : String) (player : PTag)
    (k : String)
    (hn : normalize_url u = Except.ok nurl)
    (hf : base_fetch nurl iT = Except.ok html)
    (hp : findPlayer html = some player)
    (hk : build_playlist_params player = Except.error (PErr.keyError k)) :
    get_playlist dom findPlayer iT pT u =
      (Except.error (PErr.dataIncorrect ("Не был найден ключ: [" ++ k ++ "]")),
       [Request.mk nurl []]) ∧
    (k = "data-publisher-id" ∨ k = "data-aggregator" ∨ k = "data-title-id") := by
  constructor
  · unfold get_playlist
    simp only [hn, hf, hp, hk]
    rfl
  · exact buildParams_error_key player k hk

/-- Witness for `c10_missing_attr`: a `<video-player>` lacking
`data-aggregator` fails with `DataIncorrect` naming that attribute and
only the iframe request was issued. -/
theorem c10_witness :
    get_playlist "https://animego.me"
      (fun _ => some (PTag.mk "" [("data-publisher-id", "5"), ("data-title-id", "99")]))
      (Transport.ok "iframe") (Transport.ok "zzz") (UrlOrPart.url "//kodik.info/x") =
      (Except.error (PErr.dataIncorrect ("Не был найден ключ: [data-aggregator]")),
       [Request.mk "https://kodik.info/x" []]) ∧
    ("data-aggregator" = "data-publisher-id" ∨ "data-aggregator" = "data-aggregator" ∨
     "data-aggregator" = "data-title-id") :=
  c10_missing_attr "https://animego.me"
    (fun _ => some (PTag.mk "" [("data-publisher-id", "5"), ("data-title-id", "99")]))
    (Transport.ok "iframe") (Transport.ok "zzz")
    (UrlOrPart.url "//kodik.info/x") "https://kodik.info/x" "iframe"
    (PTag.mk "" [("data-publisher-id", "5"), ("data-title-id", "99")])
    "data-aggregator" rfl rfl rfl rfl

end AnimeParser
